import Mathlib

/-!
Shallow embedding of the NewsBlur-to-Telegram triage bot (src/script.py) and
proofs about its pipeline: fetch, classify, summarize, format, deliver, and the
scheduler loop.

External services are modelled as oracles passed explicitly:
the language-model service is a function from the user content to the raw
response text (`none` encodes a service error, mirroring the caught
OpenAIError branch); HTTP calls are values of `HttpResult` (`err` encodes a
requests.RequestException after client-level retries, the branch raised by
raise_for_status or the transport and caught by the code). Python exceptions
that the code does NOT catch are modelled with `Except`: a function returning
`Except.error` means the Python function raises. Python `None` values flowing
through data are modelled with `Option`.
-/

namespace NewsBlurTelegramBot

/-- Result of an HTTP call made through the requests session: `ok` carries the
response value, `err` stands for a raised requests.RequestException (connection
failure after retries, or a non-2xx status surfaced by raise_for_status). -/
inductive HttpResult (α : Type) where
  | ok (v : α)
  | err
  deriving DecidableEq, Repr

/-- One story record of the feed JSON. Python dict access via get is modelled
with Option fields: `none` means the key is missing from the record. -/
structure Story where
  story_title : Option String
  story_content : Option String
  story_permalink : Option String
  deriving DecidableEq, Repr

/-- Body of the river_stories response. `malformed` is a body that is not
valid JSON, on which the json() call raises; `obj stories?` is a JSON object
whose "stories" key holds the given list when present (`none` = key absent). -/
inductive FetchBody where
  | malformed
  | obj (stories : Option (List Story))
  deriving DecidableEq, Repr

/-- A digest entry as built by filter_important_articles: the Python dict
keys title/summary/url. title and url may be Python None (missing source
field, no default applied in the code), hence Option. -/
structure Article where
  title : Option String
  summary : String
  url : Option String
  deriving DecidableEq, Repr

/-- Embedding of Python str.strip(): remove whitespace from both ends.
Structural (kernel-reducible) counterpart of String.trim. -/
def pyStrip (s : String) : String :=
  String.mk (((s.toList.dropWhile Char.isWhitespace).reverse.dropWhile
    Char.isWhitespace).reverse)

/-- Embedding of how Python renders a possibly-None string inside an f-string:
None prints as "None", a string prints as itself. -/
def pyShow : Option String → String
  | none => "None"
  | some s => s

/-- Embedding of openai_request (src/script.py lines 53-65), applied to the
raw oracle response: on success the content of choices[0].message is stripped
and returned; a caught OpenAIError returns None. -/
def openai_request (raw : Option String) : Option String :=
  raw.map pyStrip

/-- Embedding of is_article_important (lines 94-102), applied to the oracle
response for the given content. Python: result equals "important" if result is
truthy, else False; result is the stripped response or None. -/
def is_article_important (raw : Option String) : Bool :=
  match openai_request raw with
  | none => false
  | some result => if result = "" then false else result = "important"

/-- Embedding of summarize_article (lines 104-112), applied to the oracle
response. Python: summary if truthy, else the fixed fallback string; summary
is the stripped response or None. -/
def summarize_article (raw : Option String) : String :=
  match openai_request raw with
  | none => "Summary could not be generated."
  | some s => if s = "" then "Summary could not be generated." else s

/-- Embedding of fetch_newsblur_articles (lines 67-92). Inputs are the results
of the login POST and the river_stories GET. Both try/except blocks catch
RequestException and return the empty list. The json() call on line 92 sits
outside any try block: a malformed body raises, modelled as Except.error.
A JSON object body yields get("stories", []). -/
def fetch_newsblur_articles (login : HttpResult Unit)
    (storiesResp : HttpResult FetchBody) : Except Unit (List Story) :=
  match login with
  | .err => .ok []
  | .ok _ =>
    match storiesResp with
    | .err => .ok []
    | .ok .malformed => .error ()
    | .ok (.obj stories) => .ok (stories.getD [])

/-- Content passed to the classifier and summarizer for a story:
story.get("story_content", "") with the empty-string default. -/
def storyContent (st : Story) : String :=
  st.story_content.getD ""

/-- Embedding of filter_important_articles (lines 114-127) as the list
comprehension evaluates: for each story in order, the condition calls
is_article_important on its content; when true, the element expression calls
summarize_article and builds the dict. Despite the stale comment on line 124,
no limit is applied. `clsO` and `sumO` are the language-model oracles for the
two calls (content to raw response). -/
def filter_important_articles (clsO sumO : String → Option String) :
    List Story → List Article
  | [] => []
  | st :: rest =>
    if is_article_important (clsO (storyContent st)) then
      { title := st.story_title
        summary := summarize_article (sumO (storyContent st))
        url := st.story_permalink } :: filter_important_articles clsO sumO rest
    else
      filter_important_articles clsO sumO rest

/-- Outbound side effects of a run: one language-model call per classify, one
per summarize, one Telegram sendMessage POST per deliver. -/
inductive Effect where
  | classify (content : String)
  | summarize (content : String)
  | deliver (message : String)
  deriving DecidableEq, Repr

def Effect.isClassify : Effect → Bool
  | .classify _ => true
  | _ => false

def Effect.isSummarize : Effect → Bool
  | .summarize _ => true
  | _ => false

def Effect.isDeliver : Effect → Bool
  | .deliver _ => true
  | _ => false

/-- The language-model calls filter_important_articles performs, in order: for
each story the condition issues one classify call; only when the verdict is
true does the element expression issue a summarize call. -/
def filter_effects (clsO : String → Option String) : List Story → List Effect
  | [] => []
  | st :: rest =>
    if is_article_important (clsO (storyContent st)) then
      .classify (storyContent st) :: .summarize (storyContent st) ::
        filter_effects clsO rest
    else
      .classify (storyContent st) :: filter_effects clsO rest

/-- Embedding of format_telegram_message (lines 129-137): None for an empty
list, otherwise the header followed by one title/summary block per article.
Python f-strings print a None title or url as "None". -/
def format_telegram_message (articles : List Article) : Option String :=
  match articles with
  | [] => none
  | _ =>
    some ("<b>📰 New Important Articles:</b>\n\n" ++
      String.join (articles.map (fun a =>
        "<b>🔗 Title:</b> <a href=\"" ++ pyShow a.url ++ "\">" ++
          pyShow a.title ++ "</a>\n" ++
        "<b>📝 Summary:</b> " ++ a.summary ++ "\n\n")))

/-- Embedding of send_telegram_message (lines 139-155), returning the POST
effects it performs. A falsy message (None or empty string) returns without
any network call. Otherwise the POST happens; its outcome `post` is only
logged: the RequestException branch is caught, so the effect list and the
(None) return value are the same whether the POST succeeds or fails. -/
def send_telegram_message (articles : List Article)
    (post : HttpResult Unit) : List Effect :=
  match format_telegram_message articles with
  | none => []
  | some message =>
    if message = "" then []
    else
      match post with
      | .ok _ => [.deliver message]
      | .err => [.deliver message]

/-- All external inputs consumed by one invocation of job: the two feed HTTP
results, the two language-model oracles, and the Telegram POST result. -/
structure TickInput where
  login : HttpResult Unit
  storiesResp : HttpResult FetchBody
  clsO : String → Option String
  sumO : String → Option String
  post : HttpResult Unit

/-- Embedding of job (lines 157-170), returning the side effects it performs;
`Except.error` means job raises (only the uncaught json() error propagates).
An empty article list returns early with no effects; otherwise the stories are
filtered (classify/summarize effects) and, when any article is important, the
message is sent. -/
def job (t : TickInput) : Except Unit (List Effect) :=
  match fetch_newsblur_articles t.login t.storiesResp with
  | .error e => .error e
  | .ok articles =>
    if articles = [] then .ok []
    else
      if filter_important_articles t.clsO t.sumO articles = [] then
        .ok (filter_effects t.clsO articles)
      else
        .ok (filter_effects t.clsO articles ++
          send_telegram_message
            (filter_important_articles t.clsO t.sumO articles) t.post)

/-- Embedding of the scheduler loop in run (lines 172-183) over a finite
prefix of ticks: each tick executes job to completion; an exception raised by
job propagates out of the while loop and terminates the process, so no later
tick runs (modelled by Except.error swallowing the rest). -/
def run_ticks : List TickInput → Except Unit (List (List Effect))
  | [] => .ok []
  | t :: ts =>
    match job t with
    | .error e => .error e
    | .ok effs => (run_ticks ts).map (fun rest => effs :: rest)

/-! ## Shared helper lemmas -/

theorem filter_important_articles_append (clsO sumO : String → Option String)
    (l₁ l₂ : List Story) :
    filter_important_articles clsO sumO (l₁ ++ l₂) =
      filter_important_articles clsO sumO l₁ ++
        filter_important_articles clsO sumO l₂ := by
  induction l₁ with
  | nil => rfl
  | cons st rest ih =>
    by_cases h : is_article_important (clsO (storyContent st)) <;>
      simp [filter_important_articles, h, ih]

theorem filter_effects_counts (clsO : String → Option String)
    (stories : List Story) :
    (filter_effects clsO stories).countP Effect.isClassify = stories.length ∧
      (filter_effects clsO stories).countP Effect.isSummarize =
        stories.countP
          (fun st => is_article_important (clsO (storyContent st))) ∧
      (filter_effects clsO stories).countP Effect.isDeliver = 0 := by
  induction stories with
  | nil => exact ⟨rfl, rfl, rfl⟩
  | cons st rest ih =>
    by_cases h : is_article_important (clsO (storyContent st)) = true <;>
      simp [filter_effects, h, List.countP_cons, ih.1, ih.2.1, ih.2.2,
        Effect.isClassify, Effect.isSummarize, Effect.isDeliver]

theorem send_telegram_message_counts (articles : List Article)
    (post : HttpResult Unit) :
    (send_telegram_message articles post).countP Effect.isClassify = 0 ∧
      (send_telegram_message articles post).countP Effect.isSummarize = 0 ∧
      (send_telegram_message articles post).countP Effect.isDeliver ≤ 1 := by
  unfold send_telegram_message
  cases format_telegram_message articles with
  | none => exact ⟨rfl, rfl, by simp⟩
  | some m =>
    by_cases hm : m = "" <;> cases post <;>
      simp [hm, List.countP_cons, Effect.isClassify, Effect.isSummarize,
        Effect.isDeliver]

theorem send_telegram_message_post_independent (articles : List Article)
    (p q : HttpResult Unit) :
    send_telegram_message articles p = send_telegram_message articles q := by
  unfold send_telegram_message
  cases format_telegram_message articles with
  | none => rfl
  | some m => by_cases hm : m = "" <;> cases p <;> cases q <;> simp [hm]

theorem fetch_newsblur_articles_error (l : HttpResult Unit)
    (r : HttpResult FetchBody) (e : Unit)
    (h : fetch_newsblur_articles l r = .error e) : r = .ok .malformed := by
  cases l with
  | err => simp [fetch_newsblur_articles] at h
  | ok u =>
    cases r with
    | err => simp [fetch_newsblur_articles] at h
    | ok body =>
      cases body with
      | malformed => rfl
      | obj s => simp [fetch_newsblur_articles] at h

/-! ## Claim theorems -/

/-- C1: the verdict of is_article_important is true iff the language-model
call succeeded and its response text, stripped, is exactly "important"
(case-sensitive); any other text, an empty response, or a service error
(raw = none) yields false. -/
theorem C1_classifier_verdict (raw : Option String) :
    is_article_important raw = true ↔
      ∃ s, raw = some s ∧ pyStrip s = "important" := by
  cases raw with
  | none => simp [is_article_important, openai_request]
  | some s =>
    show (if pyStrip s = "" then false
      else decide (pyStrip s = "important")) = true ↔ _
    by_cases h : pyStrip s = "important"
    · have hne : pyStrip s ≠ "" := by rw [h]; decide
      simp [h, hne]
    · by_cases he : pyStrip s = "" <;> simp [h, he]

theorem C1_classifier_verdict_witness :
    is_article_important (some " important ") = true :=
  (C1_classifier_verdict (some " important ")).mpr
    ⟨" important ", rfl, by decide⟩

/-- C2 counterexample: a story record missing all three fields produces an
Article whose title is Python None, not the empty string, under a classifier
that marks it important — the code applies the empty-string default only to
story_content, while story.get("story_title") and story.get("story_permalink")
have no default. -/
theorem C2_counterexample :
    (filter_important_articles (fun _ => some "important") (fun _ => some "S")
        [{ story_title := none, story_content := none,
           story_permalink := none }]).map Article.title ≠ [some ""] := by
  decide

/-- C2 amended: the Article is built from the story with story_content
defaulted to the empty string when missing, while a missing story_title or
story_permalink yields None (no empty-string default) in the title and url
fields. -/
theorem C2_defaulting (clsO sumO : String → Option String) (st : Story)
    (h : is_article_important (clsO (storyContent st)) = true) :
    filter_important_articles clsO sumO [st] =
      [{ title := st.story_title,
         summary := summarize_article (sumO (storyContent st)),
         url := st.story_permalink }] ∧
      (st.story_content = none → storyContent st = "") := by
  refine ⟨?_, fun hc => by simp [storyContent, hc]⟩
  simp [filter_important_articles, h]

theorem C2_defaulting_witness :
    filter_important_articles (fun _ => some "important") (fun _ => some "S")
      [{ story_title := none, story_content := none,
         story_permalink := none }] =
      [{ title := none, summary := "S", url := none }] :=
  (C2_defaulting (fun _ => some "important") (fun _ => some "S")
    { story_title := none, story_content := none, story_permalink := none }
    (by decide)).1.trans (by decide)

/-- C3 counterexample: a failed login, a failed story fetch, and a successful
fetch of an empty feed all return the very same value, the empty list — there
is no distinct AuthFailed or FetchFailed outcome distinguishable from an empty
feed result (the difference exists only in the log). -/
theorem C3_counterexample :
    fetch_newsblur_articles .err
        (.ok (.obj (some [{ story_title := some "t",
                            story_content := some "c",
                            story_permalink := some "u" }]))) = .ok [] ∧
      fetch_newsblur_articles (.ok ()) .err = .ok [] ∧
      fetch_newsblur_articles (.ok ()) (.ok (.obj (some []))) = .ok [] :=
  ⟨rfl, rfl, rfl⟩

/-- C3 amended: whenever login or story-fetch fails at the network/HTTP level,
fetch_newsblur_articles returns the empty list — the same value as an empty
feed, not a distinct error — and the Run aborts with zero downstream side
effects: job performs no classify, summarize, or deliver call. -/
theorem C3_failure_aborts (t : TickInput)
    (h : t.login = .err ∨ t.storiesResp = .err) :
    fetch_newsblur_articles t.login t.storiesResp = .ok [] ∧
      job t = .ok [] := by
  obtain ⟨login, storiesResp, clsO, sumO, post⟩ := t
  rcases h with h | h <;> subst h
  · exact ⟨rfl, rfl⟩
  · cases login <;> exact ⟨rfl, rfl⟩

theorem C3_failure_aborts_witness :
    job { login := .err,
          storiesResp := .ok (.obj (some [{ story_title := some "t",
                                            story_content := some "c",
                                            story_permalink := some "u" }])),
          clsO := fun _ => some "important", sumO := fun _ => some "S",
          post := .ok () } = .ok [] :=
  (C3_failure_aborts _ (Or.inl rfl)).2

/-- C4 counterexample: a story-fetch response with a malformed (non-JSON) body
does not yield an empty sequence — the json() call on line 92 sits outside the
try block, so fetch_newsblur_articles raises and the run aborts with an
uncaught exception instead of completing. -/
theorem C4_counterexample :
    fetch_newsblur_articles (.ok ()) (.ok .malformed) = .error () ∧
      job { login := .ok (), storiesResp := .ok .malformed,
            clsO := fun _ => none, sumO := fun _ => none,
            post := .ok () } = .error () :=
  ⟨rfl, rfl⟩

/-- C4 amended: a story-fetch response whose body is a JSON object lacking the
stories field yields the empty sequence (no new articles) and the Run
completes without raising; a malformed body instead raises an uncaught
exception. -/
theorem C4_missing_stories_field (t : TickInput)
    (h : t.storiesResp = .ok (.obj none)) :
    fetch_newsblur_articles t.login t.storiesResp = .ok [] ∧
      job t = .ok [] := by
  obtain ⟨login, storiesResp, clsO, sumO, post⟩ := t
  subst h
  cases login <;> exact ⟨rfl, rfl⟩

theorem C4_missing_stories_field_witness :
    job { login := .ok (), storiesResp := .ok (.obj none),
          clsO := fun _ => some "important", sumO := fun _ => some "S",
          post := .ok () } = .ok [] :=
  (C4_missing_stories_field _ rfl).2

/-- C5: when the classifier marks an article important and its summarization
fails (service error, or a response that strips to the empty string),
summarize_article yields exactly the fixed fallback string, the article still
appears in the digest with that string as its summary, and the remaining
articles of the batch are still processed in order. -/
theorem C5_summarize_fallback (clsO sumO : String → Option String)
    (before after : List Story) (st : Story)
    (himp : is_article_important (clsO (storyContent st)) = true)
    (hfail : sumO (storyContent st) = none ∨
      ∃ s, sumO (storyContent st) = some s ∧ pyStrip s = "") :
    filter_important_articles clsO sumO (before ++ st :: after) =
      filter_important_articles clsO sumO before ++
        ({ title := st.story_title,
           summary := "Summary could not be generated.",
           url := st.story_permalink } ::
          filter_important_articles clsO sumO after) := by
  have hsum : summarize_article (sumO (storyContent st)) =
      "Summary could not be generated." := by
    rcases hfail with hf | ⟨s, hs, hstrip⟩
    · simp [summarize_article, openai_request, hf]
    · simp [summarize_article, openai_request, hs, hstrip]
  rw [filter_important_articles_append]
  congr 1
  simp [filter_important_articles, himp, hsum]

theorem C5_summarize_fallback_witness :
    filter_important_articles (fun _ => some "important") (fun _ => some "  ")
      [{ story_title := some "t", story_content := some "c",
         story_permalink := some "u" },
       { story_title := some "t2", story_content := some "c2",
         story_permalink := some "u2" }] =
      [{ title := some "t", summary := "Summary could not be generated.",
         url := some "u" },
       { title := some "t2", summary := "Summary could not be generated.",
         url := some "u2" }] :=
  (C5_summarize_fallback (fun _ => some "important") (fun _ => some "  ")
    [] [⟨some "t2", some "c2", some "u2"⟩] ⟨some "t", some "c", some "u"⟩
    (by decide) (Or.inr ⟨"  ", rfl, by decide⟩)).trans (by decide)

/-- C6: the digest built by filter_important_articles contains exactly the
stories whose verdict is important, in original fetch order (it equals the
filter of the story list mapped to articles), every other story is excluded,
and no cap is enforced: the digest length equals the number of important
stories. -/
theorem C6_digest_exactly_important (clsO sumO : String → Option String)
    (stories : List Story) :
    filter_important_articles clsO sumO stories =
      (stories.filter
          (fun st => is_article_important (clsO (storyContent st)))).map
        (fun st =>
          { title := st.story_title,
            summary := summarize_article (sumO (storyContent st)),
            url := st.story_permalink }) ∧
      (filter_important_articles clsO sumO stories).length =
        stories.countP
          (fun st => is_article_important (clsO (storyContent st))) := by
  induction stories with
  | nil => exact ⟨rfl, rfl⟩
  | cons st rest ih =>
    by_cases h : is_article_important (clsO (storyContent st)) = true <;>
      simp [filter_important_articles, List.filter_cons, List.countP_cons, h,
        ih.1, ih.2, List.countP_eq_length_filter]

/-- C7: formatting an empty digest yields None; delivering on an empty digest
performs no network call and cannot raise (send_telegram_message is total and
returns no effect, whatever the POST outcome would be); and every message
actually posted is nonempty, so no run sends an empty notification. -/
theorem C7_no_empty_notification :
    format_telegram_message [] = none ∧
      (∀ post : HttpResult Unit, send_telegram_message [] post = []) ∧
      ∀ (articles : List Article) (post : HttpResult Unit),
        (send_telegram_message articles post).all
          (fun e => match e with
            | .deliver m => decide (m ≠ "")
            | _ => true) = true := by
  refine ⟨rfl, fun post => rfl, fun articles post => ?_⟩
  unfold send_telegram_message
  cases format_telegram_message articles with
  | none => rfl
  | some m =>
    by_cases hm : m = ""
    · simp [hm]
    · cases post <;> simp [hm]

/-- C8 counterexample: a run that fetches one article which the classifier
marks not important performs one classify call and zero summarize calls, so
the side effects are not one classify+summarize call pair per fetched
article. -/
theorem C8_counterexample :
    job { login := .ok (),
          storiesResp := .ok (.obj (some [{ story_title := some "t",
                                            story_content := some "c",
                                            story_permalink := some "u" }])),
          clsO := fun _ => some "not important", sumO := fun _ => some "S",
          post := .ok () } = .ok [.classify "c"] ∧
      [Effect.classify "c"].countP Effect.isSummarize = 0 := by
  exact ⟨rfl, by decide⟩

/-- C8 amended: a run's side effects are one classify call per fetched
article, one summarize call per article classified important, and at most one
notification post (and none at all when the fetch comes back empty); they are
a function of the run's inputs, and subsequent ticks are unaffected by the
completed run. -/
theorem C8_effects (t : TickInput) (stories : List Story) (ts : List TickInput)
    (h : fetch_newsblur_articles t.login t.storiesResp = .ok stories) :
    ∃ effs, job t = .ok effs ∧
      effs.countP Effect.isClassify =
        (if stories = [] then 0 else stories.length) ∧
      effs.countP Effect.isSummarize =
        (if stories = [] then 0 else
          stories.countP
            (fun st => is_article_important (t.clsO (storyContent st)))) ∧
      effs.countP Effect.isDeliver ≤ 1 ∧
      run_ticks (t :: ts) = (run_ticks ts).map (fun rest => effs :: rest) := by
  have hcounts := filter_effects_counts t.clsO stories
  by_cases hs : stories = []
  · subst hs
    have hjob : job t = .ok [] := by
      unfold job
      rw [h]
      simp
    refine ⟨[], hjob, by simp, by simp, by simp, ?_⟩
    simp [run_ticks, hjob]
  · by_cases hi : filter_important_articles t.clsO t.sumO stories = []
    · have hjob : job t = .ok (filter_effects t.clsO stories) := by
        unfold job
        rw [h]
        simp [hs, hi]
      refine ⟨_, hjob, ?_, ?_, ?_, ?_⟩
      · simp [hs, hcounts.1]
      · simp [hs, hcounts.2.1]
      · simp [hcounts.2.2]
      · simp [run_ticks, hjob]
    · have hjob : job t = .ok (filter_effects t.clsO stories ++
          send_telegram_message
            (filter_important_articles t.clsO t.sumO stories) t.post) := by
        unfold job
        rw [h]
        simp [hs, hi]
      have hsend := send_telegram_message_counts
        (filter_important_articles t.clsO t.sumO stories) t.post
      refine ⟨_, hjob, ?_, ?_, ?_, ?_⟩
      · simp [hs, List.countP_append, hcounts.1, hsend.1]
      · simp [hs, List.countP_append, hcounts.2.1, hsend.2.1]
      · simpa [List.countP_append, hcounts.2.2] using hsend.2.2
      · simp [run_ticks, hjob]

theorem C8_effects_witness :
    ∃ effs,
      job { login := .ok (),
            storiesResp := .ok (.obj (some [{ story_title := some "t",
                                              story_content := some "c",
                                              story_permalink := some "u" }])),
            clsO := fun _ => some "important", sumO := fun _ => some "S",
            post := .ok () } = .ok effs ∧
        effs.countP Effect.isDeliver ≤ 1 := by
  obtain ⟨effs, h1, _, _, h4, _⟩ := C8_effects
    { login := .ok (),
      storiesResp := .ok (.obj (some [{ story_title := some "t",
                                        story_content := some "c",
                                        story_permalink := some "u" }])),
      clsO := fun _ => some "important", sumO := fun _ => some "S",
      post := .ok () }
    [{ story_title := some "t", story_content := some "c",
       story_permalink := some "u" }] [] rfl
  exact ⟨effs, h1, h4⟩

/-- C9 counterexample: not every pipeline error is non-fatal — a malformed
feed body raises an uncaught exception inside job, the scheduler loop
terminates, and the subsequent tick never executes. -/
theorem C9_counterexample :
    run_ticks
      [{ login := .ok (), storiesResp := .ok .malformed,
         clsO := fun _ => none, sumO := fun _ => none, post := .ok () },
       { login := .ok (), storiesResp := .ok (.obj (some [])),
         clsO := fun _ => none, sumO := fun _ => none, post := .ok () }] =
      .error () := by
  rfl

/-- C9 amended: whenever the feed body is not malformed, the run completes
without raising whatever the Telegram POST outcome is — a delivery HTTP error
is caught and only logged, the run's effects equal those of a successful
delivery, and the scheduler still executes the subsequent ticks. -/
theorem C9_delivery_failure_nonfatal (t : TickInput) (ts : List TickInput)
    (h : t.storiesResp ≠ .ok .malformed) :
    ∃ effs, job t = .ok effs ∧
      job t = job { t with post := .ok () } ∧
      run_ticks (t :: ts) = (run_ticks ts).map (fun rest => effs :: rest) := by
  have hpost : job t = job { t with post := .ok () } := by
    simp only [job]
    cases hf : fetch_newsblur_articles t.login t.storiesResp with
    | error e => rfl
    | ok articles =>
      by_cases h1 : articles = []
      · simp [h1]
      · by_cases h2 : filter_important_articles t.clsO t.sumO articles = []
        · simp [h1, h2]
        · simp [h1, h2, send_telegram_message_post_independent
            (filter_important_articles t.clsO t.sumO articles) t.post (.ok ())]
  have hok : ∃ effs, job t = .ok effs := by
    simp only [job]
    cases hf : fetch_newsblur_articles t.login t.storiesResp with
    | error e =>
      exact absurd (fetch_newsblur_articles_error t.login t.storiesResp e hf) h
    | ok articles =>
      by_cases h1 : articles = []
      · exact ⟨[], by simp [h1]⟩
      · by_cases h2 : filter_important_articles t.clsO t.sumO articles = []
        · exact ⟨filter_effects t.clsO articles, by simp [h1, h2]⟩
        · exact ⟨filter_effects t.clsO articles ++
            send_telegram_message
              (filter_important_articles t.clsO t.sumO articles) t.post,
            by simp [h1, h2]⟩
  obtain ⟨effs, heffs⟩ := hok
  refine ⟨effs, heffs, hpost, ?_⟩
  simp [run_ticks, heffs]

theorem C9_delivery_failure_nonfatal_witness :
    ∃ effs,
      job { login := .ok (),
            storiesResp := .ok (.obj (some [{ story_title := some "t",
                                              story_content := some "c",
                                              story_permalink := some "u" }])),
            clsO := fun _ => some "important", sumO := fun _ => some "S",
            post := .err } = .ok effs ∧
        job { login := .ok (),
              storiesResp := .ok (.obj (some [{ story_title := some "t",
                                                story_content := some "c",
                                                story_permalink := some "u" }])),
              clsO := fun _ => some "important", sumO := fun _ => some "S",
              post := .err } =
          job { login := .ok (),
                storiesResp := .ok (.obj (some [{ story_title := some "t",
                                                  story_content := some "c",
                                                  story_permalink := some "u" }])),
                clsO := fun _ => some "important", sumO := fun _ => some "S",
                post := .ok () } := by
  obtain ⟨effs, h1, h2, _⟩ := C9_delivery_failure_nonfatal
    { login := .ok (),
      storiesResp := .ok (.obj (some [{ story_title := some "t",
                                        story_content := some "c",
                                        story_permalink := some "u" }])),
      clsO := fun _ => some "important", sumO := fun _ => some "S",
      post := .err } [] (by decide)
  exact ⟨effs, h1, h2⟩

/-- C10: filter_important_articles is total over records with any subset of
fields present (missing keys are Option none, and dict get never raises); a
story with a missing story_content is classified and, when important,
summarized with the empty string as its body. -/
theorem C10_missing_content_empty_body (clsO sumO : String → Option String)
    (title url : Option String) :
    storyContent { story_title := title, story_content := none,
                   story_permalink := url } = "" ∧
      filter_effects clsO
          [{ story_title := title, story_content := none,
             story_permalink := url }] =
        (if is_article_important (clsO "") then
          [.classify "", .summarize ""] else [.classify ""]) ∧
      filter_important_articles clsO sumO
          [{ story_title := title, story_content := none,
             story_permalink := url }] =
        (if is_article_important (clsO "") then
          [{ title := title, summary := summarize_article (sumO ""),
             url := url }] else []) := by
  refine ⟨rfl, ?_, ?_⟩ <;>
    by_cases h : is_article_important (clsO "") = true <;>
      simp [filter_effects, filter_important_articles, storyContent, h]

end NewsBlurTelegramBot
